import Mathlib

/-!
Verification of the Maintenance Debt Index (MDI) computation core.

This file is a shallow embedding, in Lean 4, of the debt-calculation code of
the repository (`backend/app/core/config.py`, `backend/app/core/debt_engine.py`,
`backend/app/services/debt_service.py`,
`backend/app/services/aggregation_service.py`), together with theorems that
settle the specification claims about that code.

Modelling conventions:
* Python floats are modelled as exact rationals (`ℚ`) for the decay engine and
  the aggregation sums, and as real numbers (`ℝ`) where the code applies the
  transcendental `math.log` (the score normalizer).
* Dates are modelled as integers (a day number); `date + timedelta(days = n)`
  becomes `+ n` and date subtraction `.days` becomes integer subtraction.
* Python `Optional` arguments and nullable columns become `Option`.
* Database tables are modelled as lists; SQLAlchemy `.filter(...).first()`
  becomes `List.find?` and `.filter(...).all()` becomes `List.filter`.
* `str.lower()` is modelled by `String.toLower` (ASCII lowercasing, which
  agrees with Python on the enum/category strings the system uses).
-/

namespace MDI

/-! ### Configuration (`backend/app/core/config.py`) -/

/-- `Settings.DEFAULT_DECAY_RATE` (daily compound decay rate, 2% per day). -/
def DEFAULT_DECAY_RATE : ℚ := 2 / 100

/-- `Settings.MAX_DEBT_MULTIPLIER` (maximum debt multiplier cap). -/
def MAX_DEBT_MULTIPLIER : ℚ := 10

/-- `Settings.SLA_ROAD_DAYS`. -/
def SLA_ROAD_DAYS : ℤ := 14

/-- `Settings.SLA_DRAIN_DAYS`. -/
def SLA_DRAIN_DAYS : ℤ := 7

/-- `Settings.SLA_STREETLIGHT_DAYS`. -/
def SLA_STREETLIGHT_DAYS : ℤ := 3

/-- `Settings.SLA_BRIDGE_DAYS`. -/
def SLA_BRIDGE_DAYS : ℤ := 21

/-- `Settings.SLA_SIDEWALK_DAYS`. -/
def SLA_SIDEWALK_DAYS : ℤ := 10

/-- `Settings.SLA_DEFAULT_DAYS`. -/
def SLA_DEFAULT_DAYS : ℤ := 7

/-- `get_sla_days` from `config.py`: the dict lookup
`sla_mapping.get(asset_type.lower(), settings.SLA_DEFAULT_DAYS)` written as a
decision chain over the lower-cased asset type. -/
def get_sla_days (asset_type : String) : ℤ :=
  let t := asset_type.toLower
  if t = "road" then SLA_ROAD_DAYS
  else if t = "drain" then SLA_DRAIN_DAYS
  else if t = "streetlight" then SLA_STREETLIGHT_DAYS
  else if t = "bridge" then SLA_BRIDGE_DAYS
  else if t = "sidewalk" then SLA_SIDEWALK_DAYS
  else SLA_DEFAULT_DAYS

/-- `SEVERITY_MULTIPLIERS.get(key, 1.0)` from `config.py` / `debt_engine.py`:
the severity-multiplier dict lookup with default `1.0`, written as a decision
chain over the (already lower-cased) key. -/
def severityMultGet (key : String) : ℚ :=
  if key = "low" then 1
  else if key = "medium" then 15 / 10
  else if key = "high" then 2
  else if key = "critical" then 3
  else 1

/-! ### Debt engine (`backend/app/core/debt_engine.py`) -/

/-- The configuration state of `DebtEngine`. -/
structure DebtEngine where
  decay_rate : ℚ
  max_multiplier : ℚ
deriving DecidableEq, Repr

/-- `DebtEngine.__init__`: the arguments are `Optional[float]` and the code
assigns `self.decay_rate = decay_rate or settings.DEFAULT_DECAY_RATE` — Python
`or` falls through for any falsy value, i.e. for `None` and for `0.0`. -/
def DebtEngine.init (decay_rate max_multiplier : Option ℚ) : DebtEngine where
  decay_rate :=
    match decay_rate with
    | some r => if r = 0 then DEFAULT_DECAY_RATE else r
    | none => DEFAULT_DECAY_RATE
  max_multiplier :=
    match max_multiplier with
    | some m => if m = 0 then MAX_DEBT_MULTIPLIER else m
    | none => MAX_DEBT_MULTIPLIER

/-- The module-level singleton `debt_engine = DebtEngine()`. -/
def debt_engine : DebtEngine := DebtEngine.init none none

/-- `DebtEngine.calculate_expected_fix_date`: `report_date + timedelta(days = sla_days)`. -/
def DebtEngine.calculate_expected_fix_date (_e : DebtEngine)
    (report_date : ℤ) (asset_type : String) : ℤ :=
  report_date + get_sla_days asset_type

/-- `DebtEngine.calculate_delay_days`: `0` when not past the expected fix
date, else the (positive) number of days past it. -/
def calculate_delay_days (current_date expected_fix_date : ℤ) : ℤ :=
  if current_date ≤ expected_fix_date then 0
  else current_date - expected_fix_date

/-- `DebtEngine.calculate_decay_cost`: short-circuits to `(base_cost, 1.0)`
for `delay_days <= 0`; otherwise compound growth
`raw_multiplier = (1 + decay_rate) ^ delay_days`, severity scaling of the
growth portion, and the cap `min effective max_multiplier`.
Returns `(decay_cost, debt_multiplier)`. -/
def DebtEngine.calculate_decay_cost (e : DebtEngine)
    (base_cost : ℚ) (delay_days : ℤ) (severity : String) : ℚ × ℚ :=
  if delay_days ≤ 0 then (base_cost, 1)
  else
    let severity_mult := severityMultGet severity.toLower
    let raw_multiplier := (1 + e.decay_rate) ^ delay_days.toNat
    let growth_portion := raw_multiplier - 1
    let adjusted_growth := growth_portion * severity_mult
    let effective_multiplier := 1 + adjusted_growth
    let capped_multiplier := min effective_multiplier e.max_multiplier
    (base_cost * capped_multiplier, capped_multiplier)

/-- `DebtCalculationResult` (dataclass in `debt_engine.py`). -/
structure DebtCalculationResult where
  base_cost : ℚ
  current_cost : ℚ
  maintenance_debt : ℚ
  debt_multiplier : ℚ
  delay_days : ℤ
  expected_fix_date : ℤ
  is_overdue : Bool
  decay_rate_used : ℚ
deriving DecidableEq, Repr

/-- `DebtEngine.calculate_debt`: the main calculation pipeline
(expected fix date → delay days → decay cost → debt). -/
def DebtEngine.calculate_debt (e : DebtEngine) (base_cost : ℚ)
    (report_date : ℤ) (asset_type : String) (current_date : ℤ)
    (severity : String) : DebtCalculationResult :=
  let expected_fix_date := e.calculate_expected_fix_date report_date asset_type
  let delay_days := calculate_delay_days current_date expected_fix_date
  let res := e.calculate_decay_cost base_cost delay_days severity
  { base_cost := base_cost
    current_cost := res.1
    maintenance_debt := res.1 - base_cost
    debt_multiplier := res.2
    delay_days := delay_days
    expected_fix_date := expected_fix_date
    is_overdue := decide (0 < delay_days)
    decay_rate_used := e.decay_rate }

/-! ### Helper lemmas about `String.toLower` -/

/-- `String.toLower` written through `String.map_eq` so that concrete strings
can be evaluated. -/
theorem toLower_eval (s : String) : s.toLower = ⟨s.data.map Char.toLower⟩ := by
  unfold String.toLower
  exact String.map_eq _ _

/-- ASCII lower-casing of a character is idempotent. -/
theorem char_toLower_idem (c : Char) : c.toLower.toLower = c.toLower := by
  unfold Char.toLower
  by_cases h : c.toNat ≥ 65 ∧ c.toNat ≤ 90
  · rw [if_pos h]
    obtain ⟨h1, h2⟩ := h
    have hv : (Char.ofNat (c.toNat + 32)).toNat = c.toNat + 32 := by
      interval_cases h : c.toNat <;> decide
    rw [hv]
    rw [if_neg (by omega)]
  · rw [if_neg h, if_neg h]

/-- Lower-casing a string is idempotent. -/
theorem string_toLower_idem (s : String) : s.toLower.toLower = s.toLower := by
  rw [toLower_eval, toLower_eval]
  refine congrArg String.mk ?_
  show List.map Char.toLower (List.map Char.toLower s.data) = _
  rw [List.map_map]
  apply List.map_congr_left
  intro c _
  exact char_toLower_idem c

theorem toLower_road : "road".toLower = "road" := by rw [toLower_eval]; decide

theorem toLower_low : "low".toLower = "low" := by rw [toLower_eval]; decide

theorem toLower_medium : "medium".toLower = "medium" := by rw [toLower_eval]; decide

theorem toLower_high : "high".toLower = "high" := by rw [toLower_eval]; decide

theorem toLower_critical : "critical".toLower = "critical" := by rw [toLower_eval]; decide

theorem get_sla_days_road : get_sla_days "road" = 14 := by
  simp [get_sla_days, toLower_road, SLA_ROAD_DAYS]

/-! ### C9 — truthiness fallback in the `DebtEngine` constructor -/

/-- C9: if `DebtEngine` is constructed with an explicitly passed
`decay_rate = 0.0` or `max_multiplier = 0.0`, the constructor silently
substitutes the configured defaults (`0.02` and `10.0`): the `or` fallback
tests truthiness, so a zero argument behaves exactly like an omitted one and
a caller cannot configure a zero decay rate or a zero multiplier cap. -/
theorem debtEngine_zero_arg_uses_defaults :
    (∀ m : Option ℚ, DebtEngine.init (some 0) m = DebtEngine.init none m) ∧
    (∀ d : Option ℚ, DebtEngine.init d (some 0) = DebtEngine.init d none) ∧
    (DebtEngine.init (some 0) (some 0)).decay_rate = DEFAULT_DECAY_RATE ∧
    (DebtEngine.init (some 0) (some 0)).max_multiplier = MAX_DEBT_MULTIPLIER := by
  refine ⟨fun m => ?_, fun d => ?_, by simp [DebtEngine.init], by simp [DebtEngine.init]⟩
  · simp [DebtEngine.init]
  · simp [DebtEngine.init]

/-! ### C3 — zero delay short-circuits to multiplier exactly 1 and debt 0 -/

/-- C3: whenever `as_of_date <= expected_fix_date` the delay is 0 and the
decay calculation short-circuits, returning multiplier exactly `1`, debt
exactly `0` and `current_cost = base_cost`, independent of severity
(the exactness is the short-circuit branch of `calculate_decay_cost`,
not a computed `(1+r)^0`). -/
theorem zero_delay_short_circuit (e : DebtEngine) (base_cost : ℚ)
    (report_date current_date : ℤ) (asset_type severity : String)
    (h : current_date ≤ e.calculate_expected_fix_date report_date asset_type) :
    (e.calculate_debt base_cost report_date asset_type current_date severity).delay_days = 0 ∧
    (e.calculate_debt base_cost report_date asset_type current_date severity).debt_multiplier = 1 ∧
    (e.calculate_debt base_cost report_date asset_type current_date severity).maintenance_debt = 0 ∧
    (e.calculate_debt base_cost report_date asset_type current_date severity).current_cost = base_cost := by
  have hd : calculate_delay_days current_date
      (e.calculate_expected_fix_date report_date asset_type) = 0 := by
    unfold calculate_delay_days
    rw [if_pos h]
  simp [DebtEngine.calculate_debt, hd, DebtEngine.calculate_decay_cost]

/-- Witness for C3: the road-SLA scenario at exactly the SLA boundary
(`as_of = report_date + 14`, SLA 14 days) has delay 0, multiplier exactly 1
and debt exactly 0. -/
theorem zero_delay_short_circuit_witness :
    ((14 : ℤ) ≤ debt_engine.calculate_expected_fix_date 0 "road") ∧
    (debt_engine.calculate_debt 10000 0 "road" 14 "medium").delay_days = 0 ∧
    (debt_engine.calculate_debt 10000 0 "road" 14 "medium").debt_multiplier = 1 ∧
    (debt_engine.calculate_debt 10000 0 "road" 14 "medium").maintenance_debt = 0 := by
  have h : (14 : ℤ) ≤ debt_engine.calculate_expected_fix_date 0 "road" := by
    simp [DebtEngine.calculate_expected_fix_date, get_sla_days_road]
  obtain ⟨h1, h2, h3, _⟩ := zero_delay_short_circuit debt_engine 10000 0 14 "road" "medium" h
  exact ⟨h, h1, h2, h3⟩

/-! ### C2 — fallbacks for unknown severity and unknown category -/

/-- C2 counterexample: the claim says an unknown severity string falls back to
the "medium" multiplier (1.5); in the code the dict lookup default is `1.0`,
so an unknown severity computes a different multiplier than "medium" does. -/
theorem unknown_severity_differs_from_medium :
    (debt_engine.calculate_decay_cost 10000 1 "unknown").2 ≠
    (debt_engine.calculate_decay_cost 10000 1 "medium").2 := by
  have h1 : "unknown".toLower = "unknown" := by rw [toLower_eval]; decide
  have hu : severityMultGet "unknown" = 1 := rfl
  have hm : severityMultGet "medium" = 15 / 10 := rfl
  simp only [DebtEngine.calculate_decay_cost, h1, toLower_medium, hu, hm]
  norm_num [debt_engine, DebtEngine.init, DEFAULT_DECAY_RATE, MAX_DEBT_MULTIPLIER, min_def]

/-- C2 (amended): a severity string whose lower-cased form is not one of
low/medium/high/critical makes the decay calculation fall back to the dict
default `1.0` — i.e. it behaves exactly like "low" (multiplier 1.0), not like
"medium" — and an asset-category string outside the SLA mapping falls back to
the default SLA days (7). -/
theorem unknown_enum_fallback :
    (∀ (s : String) (e : DebtEngine) (base_cost : ℚ) (delay_days : ℤ),
       s.toLower ∉ (["low", "medium", "high", "critical"] : List String) →
       e.calculate_decay_cost base_cost delay_days s =
         e.calculate_decay_cost base_cost delay_days "low") ∧
    (∀ t : String,
       t.toLower ∉ (["road", "drain", "streetlight", "bridge", "sidewalk"] : List String) →
       get_sla_days t = SLA_DEFAULT_DAYS) := by
  constructor
  · intro s e base_cost delay_days hs
    simp only [List.mem_cons, List.not_mem_nil, or_false, not_or] at hs
    obtain ⟨n1, n2, n3, n4⟩ := hs
    have hmult : severityMultGet s.toLower = severityMultGet "low".toLower := by
      rw [toLower_low]
      simp [severityMultGet, n1, n2, n3, n4]
    simp only [DebtEngine.calculate_decay_cost, hmult]
  · intro t ht
    simp only [List.mem_cons, List.not_mem_nil, or_false, not_or] at ht
    obtain ⟨n1, n2, n3, n4, n5⟩ := ht
    simp [get_sla_days, n1, n2, n3, n4, n5]

/-- Witness for C2 (amended): "bogus" is not a known severity and computes
exactly as "low" does; "park" is not in the SLA mapping and gets the default
7 days. -/
theorem unknown_enum_fallback_witness :
    ("bogus".toLower ∉ (["low", "medium", "high", "critical"] : List String)) ∧
    ("park".toLower ∉ (["road", "drain", "streetlight", "bridge", "sidewalk"] : List String)) ∧
    debt_engine.calculate_decay_cost 100 1 "bogus" =
      debt_engine.calculate_decay_cost 100 1 "low" ∧
    get_sla_days "park" = SLA_DEFAULT_DAYS := by
  have h1 : "bogus".toLower ∉ (["low", "medium", "high", "critical"] : List String) := by
    rw [toLower_eval]; decide
  have h2 : "park".toLower ∉ (["road", "drain", "streetlight", "bridge", "sidewalk"] : List String) := by
    rw [toLower_eval]; decide
  exact ⟨h1, h2, unknown_enum_fallback.1 "bogus" debt_engine 100 1 h1,
    unknown_enum_fallback.2 "park" h2⟩

/-! ### C10 — case-insensitivity of the string inputs -/

/-- C10: `calculate_debt` is case-insensitive in its severity and
asset-category strings: it returns the same result for `s` and `t` as for
their lower-cased forms, because both the severity-multiplier lookup and the
SLA lookup lower-case before consulting their maps. -/
theorem calculate_debt_case_insensitive (e : DebtEngine) (base_cost : ℚ)
    (report_date current_date : ℤ) (asset_type severity : String) :
    e.calculate_debt base_cost report_date asset_type current_date severity =
      e.calculate_debt base_cost report_date asset_type.toLower current_date severity.toLower := by
  have h1 : get_sla_days asset_type.toLower = get_sla_days asset_type := by
    simp only [get_sla_days, string_toLower_idem]
  have h2 : severityMultGet severity.toLower.toLower = severityMultGet severity.toLower := by
    rw [string_toLower_idem]
  simp only [DebtEngine.calculate_debt, DebtEngine.calculate_expected_fix_date,
    DebtEngine.calculate_decay_cost, h1, h2]

/-! ### C1 — the decay formula and the worked road scenario -/

/-- Severity multiplier table exactly as the spec words it (low=1.0,
medium=1.5, high=2.0, critical=3.0; undefined for any other string).
Stated from the spec for the refinement comparison in C1, to be compared
with the source's `severityMultGet`. -/
def severityMultSpec (s : String) : Option ℚ :=
  if s = "low" then some 1
  else if s = "medium" then some (15 / 10)
  else if s = "high" then some 2
  else if s = "critical" then some 3
  else none

/-- C1: for positive base cost and delay and a known severity `s` with spec
multiplier `v`, `calculate_decay_cost` returns exactly
`multiplier = min (1 + ((1 + r) ^ delay - 1) * v) M` and
`current_cost = base_cost * multiplier`; and in the worked scenario
(base 10000, road SLA 14 days, severity medium, as_of = report + 24) the
delay is 10, the multiplier is exactly `1 + ((1.02)^10 - 1) * 1.5`, which is
within `0.0001` of `1.3285`, and the debt is within `1` of `3285`. -/
theorem decay_formula_and_road_worked_example :
    (∀ (e : DebtEngine) (base_cost : ℚ) (delay_days : ℤ) (s : String) (v : ℚ),
        0 < base_cost → 0 < delay_days → severityMultSpec s = some v →
        e.calculate_decay_cost base_cost delay_days s =
          (base_cost * min (1 + ((1 + e.decay_rate) ^ delay_days.toNat - 1) * v) e.max_multiplier,
            min (1 + ((1 + e.decay_rate) ^ delay_days.toNat - 1) * v) e.max_multiplier)) ∧
    (debt_engine.calculate_debt 10000 0 "road" 24 "medium").delay_days = 10 ∧
    (debt_engine.calculate_debt 10000 0 "road" 24 "medium").debt_multiplier =
      1 + ((1 + 2 / 100 : ℚ) ^ 10 - 1) * (15 / 10) ∧
    |(debt_engine.calculate_debt 10000 0 "road" 24 "medium").debt_multiplier - 13285 / 10000|
      < 1 / 10000 ∧
    |(debt_engine.calculate_debt 10000 0 "road" 24 "medium").maintenance_debt - 3285| < 1 := by
  have hgen : ∀ (e : DebtEngine) (base_cost : ℚ) (delay_days : ℤ) (s : String) (v : ℚ),
      0 < base_cost → 0 < delay_days → severityMultSpec s = some v →
      e.calculate_decay_cost base_cost delay_days s =
        (base_cost * min (1 + ((1 + e.decay_rate) ^ delay_days.toNat - 1) * v) e.max_multiplier,
          min (1 + ((1 + e.decay_rate) ^ delay_days.toNat - 1) * v) e.max_multiplier) := by
    intro e base_cost delay_days s v _ hd hs
    have hnot : ¬ delay_days ≤ 0 := not_le.mpr hd
    have hmult : severityMultGet s.toLower = v := by
      unfold severityMultSpec at hs
      split_ifs at hs with h1 h2 h3 h4 <;>
        simp_all [toLower_low, toLower_medium, toLower_high, toLower_critical, severityMultGet]
    simp only [DebtEngine.calculate_decay_cost, if_neg hnot, hmult]
  have hexp : debt_engine.calculate_expected_fix_date 0 "road" = 14 := by
    simp [DebtEngine.calculate_expected_fix_date, get_sla_days_road]
  have hdelay : calculate_delay_days 24 (debt_engine.calculate_expected_fix_date 0 "road") = 10 := by
    rw [hexp]
    norm_num [calculate_delay_days]
  have hpair : debt_engine.calculate_decay_cost 10000 10 "medium" =
      (10000 * (1 + ((1 + 2 / 100 : ℚ) ^ 10 - 1) * (15 / 10)),
        1 + ((1 + 2 / 100 : ℚ) ^ 10 - 1) * (15 / 10)) := by
    have h := hgen debt_engine 10000 10 "medium" (15 / 10) (by norm_num) (by norm_num) rfl
    rw [h]
    have hr : debt_engine.decay_rate = 2 / 100 := rfl
    have hM : debt_engine.max_multiplier = 10 := rfl
    have ht : (10 : ℤ).toNat = 10 := rfl
    rw [hr, hM, ht]
    rw [min_eq_left (by norm_num)]
  refine ⟨hgen, ?_, ?_, ?_, ?_⟩
  · simp only [DebtEngine.calculate_debt, hdelay]
  · simp only [DebtEngine.calculate_debt, hdelay, hpair]
  · simp only [DebtEngine.calculate_debt, hdelay, hpair]
    rw [abs_lt]
    constructor <;> norm_num
  · simp only [DebtEngine.calculate_debt, hdelay, hpair]
    rw [abs_lt]
    constructor <;> norm_num

/-- Witness for C1: the general decay formula applied at base 10000,
delay 10, severity "medium" with spec multiplier 1.5. -/
theorem decay_formula_and_road_worked_example_witness :
    (0 < (10000 : ℚ)) ∧ (0 < (10 : ℤ)) ∧ severityMultSpec "medium" = some (15 / 10) ∧
    debt_engine.calculate_decay_cost 10000 10 "medium" =
      (10000 * min (1 + ((1 + debt_engine.decay_rate) ^ (10 : ℤ).toNat - 1) * (15 / 10))
          debt_engine.max_multiplier,
        min (1 + ((1 + debt_engine.decay_rate) ^ (10 : ℤ).toNat - 1) * (15 / 10))
          debt_engine.max_multiplier) := by
  have h1 : (0 : ℚ) < 10000 := by norm_num
  have h2 : (0 : ℤ) < 10 := by norm_num
  have h3 : severityMultSpec "medium" = some (15 / 10) := rfl
  exact ⟨h1, h2, h3,
    decay_formula_and_road_worked_example.1 debt_engine 10000 10 "medium" (15 / 10) h1 h2 h3⟩

/-! ### C8 — monotonicity of the multiplier -/

/-- The rank of the four known severities in the severity order
low < medium < high < critical. -/
def severityRank (s : String) : Option ℕ :=
  if s = "low" then some 0
  else if s = "medium" then some 1
  else if s = "high" then some 2
  else if s = "critical" then some 3
  else none

/-- The severity-multiplier lookup never returns a negative factor. -/
theorem severityMultGet_nonneg (k : String) : 0 ≤ severityMultGet k := by
  unfold severityMultGet
  split_ifs <;> norm_num

/-- Severities of lower rank have a multiplier that is at most the multiplier
of severities of higher rank. -/
theorem severityMult_le_of_rank_le (s1 s2 : String) (r1 r2 : ℕ)
    (h1 : severityRank s1 = some r1) (h2 : severityRank s2 = some r2) (h : r1 ≤ r2) :
    severityMultGet s1.toLower ≤ severityMultGet s2.toLower := by
  unfold severityRank at h1 h2
  split_ifs at h1 h2 <;>
    simp_all [toLower_low, toLower_medium, toLower_high, toLower_critical, severityMultGet] <;>
    first
    | omega
    | norm_num

/-- C8: for fixed severity and category, the debt multiplier is monotonically
non-decreasing in `delay_days` (given the configured `decay_rate ≥ 0` and
`max_multiplier ≥ 1`, as in the defaults), and for fixed delay it is
monotonically non-decreasing in severity rank (low ≤ medium ≤ high ≤ critical). -/
theorem multiplier_monotone :
    (∀ (e : DebtEngine) (base_cost : ℚ) (s : String) (d1 d2 : ℤ),
        0 ≤ e.decay_rate → 1 ≤ e.max_multiplier → d1 ≤ d2 →
        (e.calculate_decay_cost base_cost d1 s).2 ≤ (e.calculate_decay_cost base_cost d2 s).2) ∧
    (∀ (e : DebtEngine) (base_cost : ℚ) (d : ℤ) (s1 s2 : String) (r1 r2 : ℕ),
        0 ≤ e.decay_rate → severityRank s1 = some r1 → severityRank s2 = some r2 → r1 ≤ r2 →
        (e.calculate_decay_cost base_cost d s1).2 ≤ (e.calculate_decay_cost base_cost d s2).2) := by
  constructor
  · intro e base_cost s d1 d2 hr hM hd
    simp only [DebtEngine.calculate_decay_cost, apply_ite Prod.snd]
    split_ifs with h1 h2 h2
    · exact le_rfl
    · refine le_min ?_ hM
      have hpow : (1 : ℚ) ≤ (1 + e.decay_rate) ^ d2.toNat := one_le_pow₀ (by linarith)
      have hmul : 0 ≤ ((1 + e.decay_rate) ^ d2.toNat - 1) * severityMultGet s.toLower :=
        mul_nonneg (by linarith) (severityMultGet_nonneg _)
      linarith
    · exact absurd hd (by omega)
    · refine min_le_min ?_ le_rfl
      have hpow : (1 + e.decay_rate) ^ d1.toNat ≤ (1 + e.decay_rate) ^ d2.toNat :=
        pow_le_pow_right₀ (by linarith) (by omega)
      have hmul := mul_le_mul_of_nonneg_right (sub_le_sub_right hpow 1)
        (severityMultGet_nonneg s.toLower)
      linarith
  · intro e base_cost d s1 s2 r1 r2 hr h1 h2 hrank
    simp only [DebtEngine.calculate_decay_cost, apply_ite Prod.snd]
    split_ifs with h
    · exact le_rfl
    · refine min_le_min ?_ le_rfl
      have hsm := severityMult_le_of_rank_le s1 s2 r1 r2 h1 h2 hrank
      have hpow : (1 : ℚ) ≤ (1 + e.decay_rate) ^ d.toNat := one_le_pow₀ (by linarith)
      have hmul := mul_le_mul_of_nonneg_left hsm (by linarith :
        (0 : ℚ) ≤ (1 + e.decay_rate) ^ d.toNat - 1)
      linarith

/-- Witness for C8: both monotonicity parts applied to the default engine,
at delays 3 ≤ 5 for fixed severity "high", and at ranks medium ≤ critical
for fixed delay 4. -/
theorem multiplier_monotone_witness :
    ((0 : ℚ) ≤ debt_engine.decay_rate ∧ (1 : ℚ) ≤ debt_engine.max_multiplier ∧ (3 : ℤ) ≤ 5 ∧
      (debt_engine.calculate_decay_cost 100 3 "high").2 ≤
        (debt_engine.calculate_decay_cost 100 5 "high").2) ∧
    (severityRank "medium" = some 1 ∧ severityRank "critical" = some 3 ∧ (1 : ℕ) ≤ 3 ∧
      (debt_engine.calculate_decay_cost 100 4 "medium").2 ≤
        (debt_engine.calculate_decay_cost 100 4 "critical").2) := by
  have hr : (0 : ℚ) ≤ debt_engine.decay_rate := by norm_num [debt_engine, DebtEngine.init,
    DEFAULT_DECAY_RATE]
  have hM : (1 : ℚ) ≤ debt_engine.max_multiplier := by norm_num [debt_engine, DebtEngine.init,
    MAX_DEBT_MULTIPLIER]
  have hd : (3 : ℤ) ≤ 5 := by norm_num
  have h1 : severityRank "medium" = some 1 := rfl
  have h2 : severityRank "critical" = some 3 := rfl
  have hrank : (1 : ℕ) ≤ 3 := by norm_num
  exact ⟨⟨hr, hM, hd, multiplier_monotone.1 debt_engine 100 "high" 3 5 hr hM hd⟩,
    ⟨h1, h2, hrank, multiplier_monotone.2 debt_engine 100 4 "medium" "critical" 1 3 hr h1 h2 hrank⟩⟩

/-! ### Score normalizer (`MDIScoreCalculator` in `debt_engine.py`) -/

/-- `MDIScoreResult` (dataclass in `debt_engine.py`). The score is real
because the code applies the transcendental `math.log`. -/
structure MDIScoreResult where
  score : ℝ
  category : String
  description : String
  total_debt : ℝ
  total_base_cost : ℝ

/-- `MDIScoreCalculator.CATEGORIES`: thresholds with category labels and
descriptions, in the descending order the code iterates them. -/
noncomputable def CATEGORIES : List (ℝ × String × String) :=
  [(90, "Excellent", "Infrastructure is well-maintained with minimal debt"),
   (70, "Good", "Minor maintenance delays, debt is manageable"),
   (50, "Fair", "Significant delays accumulating, attention needed"),
   (30, "Poor", "Critical maintenance backlog, urgent action required"),
   (0, "Critical", "Severe neglect, emergency intervention needed")]

/-- `MDIScoreCalculator._get_category`: the first threshold the score meets
or exceeds wins; the trailing `return` is the fallback for an empty list. -/
noncomputable def getCategoryFrom : List (ℝ × String × String) → ℝ → String × String
  | [], _ => ("Critical", "Severe neglect, emergency intervention needed")
  | c :: rest, score => if score ≥ c.1 then (c.2.1, c.2.2) else getCategoryFrom rest score

/-- Python `round(x, 1)`: round to one decimal place. -/
noncomputable def round1 (x : ℝ) : ℝ := ((round (10 * x) : ℤ) : ℝ) / 10

/-- The local `debt_ratio` of `calculate_score`:
`total_debt / total_base_cost if total_base_cost > 0 else 0`. -/
noncomputable def ratioOf (total_debt total_base_cost : ℝ) : ℝ :=
  if 0 < total_base_cost then total_debt / total_base_cost else 0

/-- The local `score` of `calculate_score` before rounding: `100.0` when the
debt ratio is non-positive, else the log normalization clamped below at 0. -/
noncomputable def rawScore (total_debt total_base_cost : ℝ) : ℝ :=
  if ratioOf total_debt total_base_cost ≤ 0 then 100
  else
    max 0 (100 * (1 - Real.log (1 + ratioOf total_debt total_base_cost) /
      Real.log ((MAX_DEBT_MULTIPLIER : ℚ) : ℝ)))

/-- `MDIScoreCalculator.calculate_score`: the defined special case for
non-positive base cost, the `debt_ratio <= 0` early score of 100, the
logarithmic normalization `max 0 (100 * (1 - log(1+ratio)/log(max_mult)))`,
the rounding to one decimal, and the category lookup. -/
noncomputable def calculate_score (total_debt total_base_cost : ℝ) : MDIScoreResult :=
  if total_base_cost ≤ 0 then
    { score := 100
      category := "Excellent"
      description := "No maintenance debt - infrastructure is pristine"
      total_debt := 0
      total_base_cost := 0 }
  else
    { score := round1 (rawScore total_debt total_base_cost)
      category := (getCategoryFrom CATEGORIES (round1 (rawScore total_debt total_base_cost))).1
      description := (getCategoryFrom CATEGORIES (round1 (rawScore total_debt total_base_cost))).2
      total_debt := total_debt
      total_base_cost := total_base_cost }

/-- Rounding to one decimal does not leave `[0, 100]`. -/
theorem round1_mem_of_mem (x : ℝ) (h0 : 0 ≤ x) (h1 : x ≤ 100) :
    0 ≤ round1 x ∧ round1 x ≤ 100 := by
  constructor
  · have : (0 : ℤ) ≤ round (10 * x) := by
      rw [round_eq]
      exact Int.le_floor.mpr (by push_cast; linarith)
    unfold round1
    have : ((0 : ℤ) : ℝ) ≤ ((round (10 * x) : ℤ) : ℝ) := Int.cast_le.mpr this
    push_cast at this
    linarith
  · have hf : round (10 * x) ≤ 1000 := by
      rw [round_eq]
      have : (10 : ℝ) * x + 1 / 2 ≤ (1000 : ℤ) + 1 / 2 := by push_cast; linarith
      calc ⌊(10 : ℝ) * x + 1 / 2⌋ ≤ ⌊((1000 : ℤ) : ℝ) + 1 / 2⌋ := Int.floor_le_floor this
        _ = 1000 + ⌊(1 / 2 : ℝ)⌋ := by rw [add_comm, Int.floor_add_int, add_comm]
        _ = 1000 := by norm_num
    unfold round1
    have : ((round (10 * x) : ℤ) : ℝ) ≤ ((1000 : ℤ) : ℝ) := Int.cast_le.mpr hf
    push_cast at this
    linarith

/-- C5: the score normalizer returns score 100 and category "Excellent"
whenever `total_base_cost <= 0` (defined special case); returns 100 when the
debt ratio is `<= 0`; and otherwise returns
`100 * (1 - ln(1+ratio)/ln(max_multiplier))` clamped to `[0, 100]` and
rounded to one decimal place (the upper clamp is vacuous because the
normalized value is already below 100). -/
theorem score_normalizer_cases (total_debt total_base_cost : ℝ) :
    (total_base_cost ≤ 0 →
      (calculate_score total_debt total_base_cost).score = 100 ∧
      (calculate_score total_debt total_base_cost).category = "Excellent") ∧
    (0 < total_base_cost → total_debt / total_base_cost ≤ 0 →
      (calculate_score total_debt total_base_cost).score = 100) ∧
    (0 < total_base_cost → 0 < total_debt / total_base_cost →
      (calculate_score total_debt total_base_cost).score =
        round1 (min 100 (max 0 (100 * (1 - Real.log (1 + total_debt / total_base_cost) /
          Real.log ((MAX_DEBT_MULTIPLIER : ℚ) : ℝ))))) ∧
      0 ≤ (calculate_score total_debt total_base_cost).score ∧
      (calculate_score total_debt total_base_cost).score ≤ 100) := by
  refine ⟨fun hb => ?_, fun hb hr => ?_, fun hb hr => ?_⟩
  · unfold calculate_score
    rw [if_pos hb]
    exact ⟨rfl, rfl⟩
  · unfold calculate_score
    rw [if_neg (not_le.mpr hb)]
    show round1 (rawScore total_debt total_base_cost) = 100
    have hrs : rawScore total_debt total_base_cost = 100 := by
      unfold rawScore ratioOf
      rw [if_pos hb, if_pos hr]
    rw [hrs]
    unfold round1
    have : (10 : ℝ) * 100 = ((1000 : ℤ) : ℝ) := by norm_num
    rw [this, round_intCast]
    norm_num
  · have hM : ((MAX_DEBT_MULTIPLIER : ℚ) : ℝ) = 10 := by
      norm_num [MAX_DEBT_MULTIPLIER]
    have hlogM : 0 < Real.log ((MAX_DEBT_MULTIPLIER : ℚ) : ℝ) := by
      rw [hM]
      exact Real.log_pos (by norm_num)
    have hlogr : 0 < Real.log (1 + total_debt / total_base_cost) :=
      Real.log_pos (by linarith)
    have hnorm : 0 < Real.log (1 + total_debt / total_base_cost) /
        Real.log ((MAX_DEBT_MULTIPLIER : ℚ) : ℝ) := div_pos hlogr hlogM
    set v : ℝ := 100 * (1 - Real.log (1 + total_debt / total_base_cost) /
      Real.log ((MAX_DEBT_MULTIPLIER : ℚ) : ℝ)) with hv
    have hv100 : v ≤ 100 := by
      rw [hv]
      nlinarith
    have hmax100 : max 0 v ≤ 100 := max_le (by norm_num) hv100
    have hmin : min 100 (max 0 v) = max 0 v := min_eq_right hmax100
    have hscore : (calculate_score total_debt total_base_cost).score = round1 (max 0 v) := by
      unfold calculate_score
      rw [if_neg (not_le.mpr hb)]
      show round1 (rawScore total_debt total_base_cost) = round1 (max 0 v)
      have hrs : rawScore total_debt total_base_cost = max 0 v := by
        unfold rawScore ratioOf
        rw [if_pos hb, if_neg (not_le.mpr hr)]
      rw [hrs]
    refine ⟨by rw [hscore, hmin], ?_, ?_⟩
    · rw [hscore]
      exact (round1_mem_of_mem _ (le_max_left 0 v) hmax100).1
    · rw [hscore]
      exact (round1_mem_of_mem _ (le_max_left 0 v) hmax100).2

/-- Witness for C5: the zero-base-cost special case at `(5, 0)` and the
zero-ratio case at `(0, 1)`. -/
theorem score_normalizer_cases_witness :
    ((0 : ℝ) ≤ 0 ∧ (calculate_score 5 0).score = 100 ∧
      (calculate_score 5 0).category = "Excellent") ∧
    ((0 : ℝ) < 1 ∧ (0 : ℝ) / 1 ≤ 0 ∧ (calculate_score 0 1).score = 100) := by
  have h1 : (0 : ℝ) ≤ 0 := le_refl 0
  have h2 : (0 : ℝ) < 1 := by norm_num
  have h3 : (0 : ℝ) / 1 ≤ 0 := by norm_num
  exact ⟨⟨h1, (score_normalizer_cases 5 0).1 h1⟩,
    ⟨h2, h3, (score_normalizer_cases 0 1).2.1 h2 h3⟩⟩

/-! ### Data model (`models/issue.py`, `models/asset.py`, `models/ward.py`) -/

/-- The issue fields the debt computation reads. `severity` is the enum's
string value; `estimated_repair_cost` is a nullable column. -/
structure Issue where
  is_resolved : Bool
  severity : String
  report_date : ℤ
  estimated_repair_cost : Option ℚ

/-- The asset fields the debt computation reads, with its issues inlined
(the ORM relationship `asset.issues`). `status` is the enum's string value. -/
structure Asset where
  id : ℕ
  ward_id : ℕ
  asset_type : String
  status : String
  base_repair_cost : ℚ
  issues : List Issue

/-! ### Debt service (`services/debt_service.py`) -/

/-- `issue.estimated_repair_cost or issue.asset.base_repair_cost`: Python
`or` falls through for `None` and for a falsy `0.0` estimate. -/
def issueBaseCost (asset : Asset) (i : Issue) : ℚ :=
  match i.estimated_repair_cost with
  | some c => if c = 0 then asset.base_repair_cost else c
  | none => asset.base_repair_cost

/-- `DebtService.calculate_issue_debt`: delegates to the engine with the
issue's base cost, report date, the asset's type and the issue severity. -/
def calculate_issue_debt (asset : Asset) (i : Issue) (current_date : ℤ) :
    DebtCalculationResult :=
  debt_engine.calculate_debt (issueBaseCost asset i) i.report_date asset.asset_type
    current_date i.severity

/-- The open issues of an asset: `[i for i in asset.issues if not i.is_resolved]`. -/
def openIssues (asset : Asset) : List Issue :=
  asset.issues.filter (fun i => !i.is_resolved)

/-- `DebtService.calculate_asset_debt`: per-open-issue results plus the
accumulated `(total_debt, total_base_cost)`. -/
def calculate_asset_debt (asset : Asset) (current_date : ℤ) :
    List DebtCalculationResult × ℚ × ℚ :=
  ((openIssues asset).map (fun i => calculate_issue_debt asset i current_date),
    (((openIssues asset).map (fun i => calculate_issue_debt asset i current_date)).map
      (fun r => r.maintenance_debt)).sum,
    (((openIssues asset).map (fun i => calculate_issue_debt asset i current_date)).map
      (fun r => r.base_cost)).sum)

/-! ### Keyed snapshot stores and the query-then-update-or-insert pattern

All three snapshot writers (`DebtService.create_debt_snapshot`,
`AggregationService.save_ward_score`, `AggregationService.save_city_score`)
share the same shape: query the row for the composite key, mutate it in place
when present, else insert a new row. A store is a list of `(key, row)` pairs
in insertion order. -/

/-- `query(...).filter(key).first()`: the first row with the given key. -/
def findRow {K V : Type} [DecidableEq K] (store : List (K × V)) (k : K) : Option (K × V) :=
  store.find? (fun p => decide (p.1 = k))

/-- Overwrite the first row holding the key (the ORM mutates the queried row
in place). -/
def updateFirst {K V : Type} [DecidableEq K] (k : K) (v : V) :
    List (K × V) → List (K × V)
  | [] => []
  | p :: rest => if p.1 = k then (k, v) :: rest else p :: updateFirst k v rest

/-- The shared write pattern: update the existing row for the key when one
exists, else append a fresh row. -/
def upsert {K V : Type} [DecidableEq K] (store : List (K × V)) (k : K) (v : V) :
    List (K × V) :=
  if (findRow store k).isSome then updateFirst k v store else store ++ [(k, v)]

/-- A store satisfies the at-most-one-row-per-key invariant when its keys are
pairwise distinct. -/
def keysNodup {K V : Type} (store : List (K × V)) : Prop :=
  (store.map Prod.fst).Nodup

theorem findRow_eq_none {K V : Type} [DecidableEq K] (store : List (K × V)) (k : K)
    (h : findRow store k = none) : ∀ p ∈ store, p.1 ≠ k := by
  intro p hp
  have := List.find?_eq_none.mp h p hp
  simpa using this

theorem updateFirst_map_fst {K V : Type} [DecidableEq K] (k : K) (v : V) :
    ∀ store : List (K × V), (updateFirst k v store).map Prod.fst = store.map Prod.fst := by
  intro store
  induction store with
  | nil => rfl
  | cons p rest ih =>
    by_cases hp : p.1 = k
    · simp [updateFirst, hp]
    · simp [updateFirst, hp, ih]

theorem upsert_keysNodup {K V : Type} [DecidableEq K] (store : List (K × V)) (k : K) (v : V)
    (h : keysNodup store) : keysNodup (upsert store k v) := by
  unfold upsert
  by_cases hf : (findRow store k).isSome
  · rw [if_pos hf]
    unfold keysNodup
    rw [updateFirst_map_fst]
    exact h
  · rw [if_neg hf]
    unfold keysNodup at h ⊢
    rw [List.map_append]
    apply List.Nodup.append h (by simp)
    intro x hx hx'
    simp only [List.map_cons, List.map_nil, List.mem_singleton] at hx'
    obtain ⟨p, hp, hpk⟩ := List.mem_map.mp hx
    have hnone : findRow store k = none := Option.not_isSome_iff_eq_none.mp hf
    exact findRow_eq_none store k hnone p hp (hx' ▸ hpk)

theorem findRow_updateFirst_self {K V : Type} [DecidableEq K] (k : K) (v : V) :
    ∀ store : List (K × V), (findRow store k).isSome →
      findRow (updateFirst k v store) k = some (k, v) := by
  intro store
  induction store with
  | nil => intro h; simp [findRow] at h
  | cons p rest ih =>
    intro h
    by_cases hp : p.1 = k
    · simp [updateFirst, hp, findRow, List.find?]
    · have : (findRow rest k).isSome := by
        simpa [findRow, List.find?, hp] using h
      simp [updateFirst, hp, findRow, List.find?, ih this]
      simpa [findRow] using ih this

theorem findRow_upsert_self {K V : Type} [DecidableEq K] (store : List (K × V)) (k : K) (v : V) :
    findRow (upsert store k v) k = some (k, v) := by
  unfold upsert
  by_cases hf : (findRow store k).isSome
  · rw [if_pos hf]
    exact findRow_updateFirst_self k v store hf
  · rw [if_neg hf]
    have hnone : findRow store k = none := Option.not_isSome_iff_eq_none.mp hf
    unfold findRow at hnone ⊢
    rw [List.find?_append, hnone]
    simp [List.find?]

theorem findRow_updateFirst_other {K V : Type} [DecidableEq K] (k k' : K) (v : V)
    (hk : k' ≠ k) :
    ∀ store : List (K × V), findRow (updateFirst k v store) k' = findRow store k' := by
  intro store
  induction store with
  | nil => rfl
  | cons p rest ih =>
    by_cases hp : p.1 = k
    · rw [updateFirst, if_pos hp]
      unfold findRow
      rw [List.find?_cons_of_neg _ (by simpa using fun h : k = k' => hk h.symm),
        List.find?_cons_of_neg _ (by rw [hp]; simpa using fun h : k = k' => hk h.symm)]
    · rw [updateFirst, if_neg hp]
      unfold findRow
      by_cases hq : p.1 = k'
      · rw [List.find?_cons_of_pos _ (by simpa using hq),
          List.find?_cons_of_pos _ (by simpa using hq)]
      · rw [List.find?_cons_of_neg _ (by simpa using hq),
          List.find?_cons_of_neg _ (by simpa using hq)]
        exact ih

theorem findRow_upsert_other {K V : Type} [DecidableEq K] (store : List (K × V))
    (k k' : K) (v : V) (hk : k' ≠ k) :
    findRow (upsert store k v) k' = findRow store k' := by
  unfold upsert
  by_cases hf : (findRow store k).isSome
  · rw [if_pos hf]
    exact findRow_updateFirst_other k k' v hk store
  · rw [if_neg hf]
    unfold findRow
    rw [List.find?_append]
    have hd : List.find? (fun p => decide (p.1 = k')) [(k, v)] = none := by
      rw [List.find?_cons_of_neg _ (by simpa using fun h : k = k' => hk h.symm)]
      rfl
    rw [hd, Option.or_none]

theorem updateFirst_no_change {K V : Type} [DecidableEq K] (k : K) (v : V) :
    ∀ store : List (K × V), findRow store k = some (k, v) → updateFirst k v store = store := by
  intro store
  induction store with
  | nil => intro h; simp [findRow] at h
  | cons p rest ih =>
    intro h
    by_cases hp : p.1 = k
    · have hfind : List.find? (fun q => decide (q.1 = k)) (p :: rest) = some p :=
        List.find?_cons_of_pos _ (by simpa using hp)

      unfold findRow at h
      rw [hfind] at h
      obtain rfl : p = (k, v) := Option.some.inj h
      rw [updateFirst, if_pos hp]
    · have hrest : findRow rest k = some (k, v) := by
        unfold findRow at h ⊢
        rwa [List.find?_cons_of_neg _ (by simpa using hp)] at h
      rw [updateFirst, if_neg hp, ih hrest]

theorem upsert_idem {K V : Type} [DecidableEq K] (store : List (K × V)) (k : K) (v : V) :
    upsert (upsert store k v) k v = upsert store k v := by
  have hself := findRow_upsert_self store k v
  have hsome : (findRow (upsert store k v) k).isSome := by rw [hself]; rfl
  conv_lhs => rw [upsert]
  rw [if_pos hsome]
  exact updateFirst_no_change k v _ hself

/-! ### Snapshot rows (`models/debt.py` `DebtSnapshot`, `models/ward.py`
`WardScore` / `CityScore`): the columns the savers write. -/

/-- The computed columns of a `DebtSnapshot` row. -/
structure DebtSnapshotRow where
  total_base_cost : ℚ
  total_current_cost : ℚ
  total_debt : ℚ
  open_issue_count : ℕ
  overdue_issue_count : ℕ
  avg_delay_days : ℚ
  max_delay_days : ℤ
  avg_debt_multiplier : ℚ
  max_debt_multiplier : ℚ
  mdi_score : ℝ

/-- The computed columns of a `WardScore` row. -/
structure WardScoreRow where
  mdi_score : ℝ
  score_category : String
  total_debt : ℚ
  total_base_cost : ℚ
  total_assets : ℕ
  assets_with_issues : ℕ
  assets_overdue : ℕ
  total_open_issues : ℕ
  total_overdue_issues : ℕ
  avg_delay_days : ℚ
  max_delay_days : ℤ

/-- The computed columns of a `CityScore` row. -/
structure CityScoreRow where
  mdi_score : ℝ
  score_category : String
  total_debt : ℚ
  total_base_cost : ℚ
  total_wards : ℕ
  total_assets : ℕ
  total_open_issues : ℕ
  wards_excellent : ℕ
  wards_good : ℕ
  wards_fair : ℕ
  wards_poor : ℕ
  wards_critical : ℕ

/-- The asset debt-snapshot store, keyed by `(asset_id, snapshot_date)`. -/
abbrev SnapStore := List ((ℕ × ℤ) × DebtSnapshotRow)

/-- The ward-score store, keyed by `(ward_id, score_date)`. -/
abbrev WardStore := List ((ℕ × ℤ) × WardScoreRow)

/-- The city-score store, keyed by `(city_code, score_date)`. -/
abbrev CityStore := List ((String × ℤ) × CityScoreRow)

/-! ### Aggregation service (`services/aggregation_service.py`) -/

/-- The shared trend-classification block: `score_trend` starts as
`"stable"` and is reclassified only when a 7-day score change exists, with
the strict ±5 dead band. -/
noncomputable def trendLabel (change : Option ℝ) : String :=
  match change with
  | none => "stable"
  | some c => if c > 5 then "improving" else if c < -5 then "declining" else "stable"

/-- The response fields of `MDIScoreResponse` that the asset score endpoint
fills in (`schemas/score.py`; the trend triple is `Optional` there). -/
structure MDIScoreResponse where
  asset_id : ℕ
  mdi_score : ℝ
  score_category : String
  total_debt : ℚ
  total_base_cost : ℚ
  open_issues : ℕ
  overdue_issues : ℕ
  max_delay_days : ℤ
  score_change_7d : Option ℝ
  score_change_30d : Option ℝ
  score_trend : Option String

/-- `AggregationService.get_asset_mdi_score`: `None` when the asset does not
exist; otherwise the current debt and score plus the 7/30-day changes against
the debt-snapshot store and the trend label (always a string, even without
history). -/
noncomputable def get_asset_mdi_score (assets : List Asset) (snaps : SnapStore)
    (asset_id : ℕ) (today : ℤ) : Option MDIScoreResponse :=
  match assets.find? (fun a => a.id == asset_id) with
  | none => none
  | some asset =>
    let issue_debts := (calculate_asset_debt asset today).1
    let total_debt := (calculate_asset_debt asset today).2.1
    let total_base_cost := (calculate_asset_debt asset today).2.2
    let mdi := calculate_score (total_debt : ℝ) (total_base_cost : ℝ)
    let overdue := issue_debts.filter (fun d => d.is_overdue)
    let score_change_7d : Option ℝ :=
      (findRow snaps (asset_id, today - 7)).map (fun p => mdi.score - p.2.mdi_score)
    let score_change_30d : Option ℝ :=
      (findRow snaps (asset_id, today - 30)).map (fun p => mdi.score - p.2.mdi_score)
    some
      { asset_id := asset.id
        mdi_score := mdi.score
        score_category := mdi.category
        total_debt := total_debt
        total_base_cost := total_base_cost
        open_issues := issue_debts.length
        overdue_issues := overdue.length
        max_delay_days := ((overdue.map (fun d => d.delay_days)).max?).getD 0
        score_change_7d := score_change_7d
        score_change_30d := score_change_30d
        score_trend := some (trendLabel score_change_7d) }

/-- The response fields of `WardScoreResponse` (`schemas/score.py`). -/
structure WardScoreResponse where
  ward_id : ℕ
  mdi_score : ℝ
  score_category : String
  score_description : String
  total_debt : ℚ
  total_base_cost : ℚ
  total_assets : ℕ
  assets_with_issues : ℕ
  assets_overdue : ℕ
  open_issues : ℕ
  overdue_issues : ℕ
  critical_issues : ℕ
  avg_delay_days : ℚ
  max_delay_days : ℤ
  score_change_7d : Option ℝ
  score_trend : Option String

/-- `query(Asset).filter(ward_id == ..., status == ACTIVE).all()`. -/
def wardActiveAssets (assets : List Asset) (ward_id : ℕ) : List Asset :=
  assets.filter (fun a => a.ward_id == ward_id && a.status == "active")

/-- `AggregationService.calculate_ward_score`: `None` for an unknown ward;
the defined perfect-score response for a ward with no active assets (its
trend fields are the schema defaults, i.e. absent); otherwise the
accumulated totals, counts and delay statistics, the normalized score, and
the 7-day trend against the ward-score store. -/
noncomputable def calculate_ward_score (assets : List Asset) (wards : List ℕ)
    (wstore : WardStore) (ward_id : ℕ) (score_date : ℤ) : Option WardScoreResponse :=
  if ward_id ∈ wards then
    if (wardActiveAssets assets ward_id).isEmpty then
      some
        { ward_id := ward_id
          mdi_score := 100
          score_category := "Excellent"
          score_description := "No assets or all assets well-maintained"
          total_debt := 0
          total_base_cost := 0
          total_assets := 0
          assets_with_issues := 0
          assets_overdue := 0
          open_issues := 0
          overdue_issues := 0
          critical_issues := 0
          avg_delay_days := 0
          max_delay_days := 0
          score_change_7d := none
          score_trend := none }
    else
      let was := wardActiveAssets assets ward_id
      let per := was.map (fun a => calculate_asset_debt a score_date)
      let total_debt : ℚ := (per.map (fun p => p.2.1)).sum
      let total_base_cost : ℚ := (per.map (fun p => p.2.2)).sum
      let all_delays :=
        (per.map (fun p => (p.1.filter (fun d => d.is_overdue)).map
          (fun d => d.delay_days))).flatten
      let mdi := calculate_score (total_debt : ℝ) (total_base_cost : ℝ)
      let score_change_7d : Option ℝ :=
        (findRow wstore (ward_id, score_date - 7)).map (fun p => mdi.score - p.2.mdi_score)
      some
        { ward_id := ward_id
          mdi_score := mdi.score
          score_category := mdi.category
          score_description := mdi.description
          total_debt := total_debt
          total_base_cost := total_base_cost
          total_assets := was.length
          assets_with_issues := (per.filter (fun p => !p.1.isEmpty)).length
          assets_overdue :=
            (per.filter (fun p => !(p.1.filter (fun d => d.is_overdue)).isEmpty)).length
          open_issues := (per.map (fun p => p.1.length)).sum
          overdue_issues := (per.map (fun p => (p.1.filter (fun d => d.is_overdue)).length)).sum
          critical_issues := (was.map (fun a => (a.issues.filter
            (fun i => !i.is_resolved && i.severity == "critical")).length)).sum
          avg_delay_days :=
            if all_delays.isEmpty then 0 else (all_delays.sum : ℚ) / (all_delays.length : ℚ)
          max_delay_days := per.foldl (fun m p =>
            if ((p.1.filter (fun d => d.is_overdue)).map (fun d => d.delay_days)).isEmpty
            then m
            else max m ((((p.1.filter (fun d => d.is_overdue)).map
              (fun d => d.delay_days)).max?).getD 0)) 0
          score_change_7d := score_change_7d
          score_trend := some (trendLabel score_change_7d) }
  else none

/-- The response fields of `CityScoreResponse` (`schemas/score.py`); the
top/bottom ward ranking lists are presentational and not modelled. -/
structure CityScoreResponse where
  city_code : String
  mdi_score : ℝ
  score_category : String
  score_description : String
  total_debt : ℚ
  total_base_cost : ℚ
  total_wards : ℕ
  total_assets : ℕ
  total_open_issues : ℕ
  wards_excellent : ℕ
  wards_good : ℕ
  wards_fair : ℕ
  wards_poor : ℕ
  wards_critical : ℕ
  score_change_7d : Option ℝ
  score_change_30d : Option ℝ
  score_trend : Option String

/-- `AggregationService.calculate_city_score`: sums every ward's score
response, buckets the ward categories, normalizes the city score and derives
the 7/30-day trend against the city-score store. -/
noncomputable def calculate_city_score (assets : List Asset) (wards : List ℕ)
    (wstore : WardStore) (cstore : CityStore) (city_code : String) (score_date : ℤ) :
    CityScoreResponse :=
  let ward_scores := wards.filterMap (fun w => calculate_ward_score assets wards wstore w score_date)
  let total_debt : ℚ := (ward_scores.map (fun s => s.total_debt)).sum
  let total_base_cost : ℚ := (ward_scores.map (fun s => s.total_base_cost)).sum
  let mdi := calculate_score (total_debt : ℝ) (total_base_cost : ℝ)
  let score_change_7d : Option ℝ :=
    (findRow cstore (city_code, score_date - 7)).map (fun p => mdi.score - p.2.mdi_score)
  let score_change_30d : Option ℝ :=
    (findRow cstore (city_code, score_date - 30)).map (fun p => mdi.score - p.2.mdi_score)
  { city_code := city_code
    mdi_score := mdi.score
    score_category := mdi.category
    score_description := mdi.description
    total_debt := total_debt
    total_base_cost := total_base_cost
    total_wards := wards.length
    total_assets := (ward_scores.map (fun s => s.total_assets)).sum
    total_open_issues := (ward_scores.map (fun s => s.open_issues)).sum
    wards_excellent := (ward_scores.map (fun s => s.score_category.toLower)).count "excellent"
    wards_good := (ward_scores.map (fun s => s.score_category.toLower)).count "good"
    wards_fair := (ward_scores.map (fun s => s.score_category.toLower)).count "fair"
    wards_poor := (ward_scores.map (fun s => s.score_category.toLower)).count "poor"
    wards_critical := (ward_scores.map (fun s => s.score_category.toLower)).count "critical"
    score_change_7d := score_change_7d
    score_change_30d := score_change_30d
    score_trend := some (trendLabel score_change_7d) }

/-! ### Snapshot writers (`create_debt_snapshot`, `save_ward_score`,
`save_city_score`) and the daily batch entry points. -/

/-- The snapshot columns `DebtService.create_debt_snapshot` computes for an
asset at a date (lines 237-261); they depend only on the asset and the date,
not on the snapshot store. -/
noncomputable def debtSnapshotRow (asset : Asset) (snapshot_date : ℤ) : DebtSnapshotRow :=
  let issue_debts := (calculate_asset_debt asset snapshot_date).1
  let total_debt := (calculate_asset_debt asset snapshot_date).2.1
  let total_base_cost := (calculate_asset_debt asset snapshot_date).2.2
  let delays : List ℤ := (issue_debts.filter (fun d => d.is_overdue)).map (fun d => d.delay_days)
  let mults : List ℚ := issue_debts.map (fun d => d.debt_multiplier)
  { total_base_cost := total_base_cost
    total_current_cost := total_base_cost + total_debt
    total_debt := total_debt
    open_issue_count := issue_debts.length
    overdue_issue_count := (issue_debts.filter (fun d => d.is_overdue)).length
    avg_delay_days := if delays.isEmpty then 0 else (delays.sum : ℚ) / (delays.length : ℚ)
    max_delay_days := if delays.isEmpty then 0 else (delays.max?).getD 0
    avg_debt_multiplier := if mults.isEmpty then 1 else mults.sum / (mults.length : ℚ)
    max_debt_multiplier := if mults.isEmpty then 1 else (mults.max?).getD 1
    mdi_score := (calculate_score (total_debt : ℝ) (total_base_cost : ℝ)).score }

/-- `DebtService.create_debt_snapshot`: `None`-asset leaves the store alone;
otherwise update the existing row for `(asset_id, snapshot_date)` in place or
insert a new one. -/
noncomputable def create_debt_snapshot (assets : List Asset) (asset_id : ℕ)
    (snapshot_date : ℤ) (store : SnapStore) : SnapStore :=
  match assets.find? (fun a => a.id == asset_id) with
  | none => store
  | some asset => upsert store (asset_id, snapshot_date) (debtSnapshotRow asset snapshot_date)

/-- The `WardScore` columns `save_ward_score` copies from the response
(lines 282-292). -/
def wardRowOf (r : WardScoreResponse) : WardScoreRow :=
  { mdi_score := r.mdi_score
    score_category := r.score_category
    total_debt := r.total_debt
    total_base_cost := r.total_base_cost
    total_assets := r.total_assets
    assets_with_issues := r.assets_with_issues
    assets_overdue := r.assets_overdue
    total_open_issues := r.open_issues
    total_overdue_issues := r.overdue_issues
    avg_delay_days := r.avg_delay_days
    max_delay_days := r.max_delay_days }

/-- `AggregationService.save_ward_score`: compute the response, then update
the existing `(ward_id, score_date)` row in place or insert a new one; an
unknown ward saves nothing. -/
noncomputable def save_ward_score (assets : List Asset) (wards : List ℕ)
    (ward_id : ℕ) (score_date : ℤ) (wstore : WardStore) : WardStore :=
  match calculate_ward_score assets wards wstore ward_id score_date with
  | none => wstore
  | some resp => upsert wstore (ward_id, score_date) (wardRowOf resp)

/-- The `CityScore` columns `save_city_score` copies from the response
(lines 458-469). -/
def cityRowOf (r : CityScoreResponse) : CityScoreRow :=
  { mdi_score := r.mdi_score
    score_category := r.score_category
    total_debt := r.total_debt
    total_base_cost := r.total_base_cost
    total_wards := r.total_wards
    total_assets := r.total_assets
    total_open_issues := r.total_open_issues
    wards_excellent := r.wards_excellent
    wards_good := r.wards_good
    wards_fair := r.wards_fair
    wards_poor := r.wards_poor
    wards_critical := r.wards_critical }

/-- `AggregationService.save_city_score`: compute the city response and
upsert the `(city_code, score_date)` row. -/
noncomputable def save_city_score (assets : List Asset) (wards : List ℕ)
    (city_code : String) (score_date : ℤ) (wstore : WardStore) (cstore : CityStore) :
    CityStore :=
  upsert cstore (city_code, score_date)
    (cityRowOf (calculate_city_score assets wards wstore cstore city_code score_date))

/-- `DebtService.calculate_all_asset_debts`: snapshot every active asset for
today (the per-issue cached-field write-back is a separate side channel and
not part of the snapshot store). -/
noncomputable def calculate_all_asset_debts (assets : List Asset) (today : ℤ)
    (store : SnapStore) : SnapStore :=
  (assets.filter (fun a => a.status == "active")).foldl
    (fun st a => create_debt_snapshot assets a.id today st) store

/-- `AggregationService.calculate_all_scores`: save every ward's score for
today, then the city score computed from the updated ward store. -/
noncomputable def calculate_all_scores (assets : List Asset) (wards : List ℕ)
    (today : ℤ) (wstore : WardStore) (cstore : CityStore) : WardStore × CityStore :=
  let w2 := wards.foldl (fun st w => save_ward_score assets wards w today st) wstore
  (w2, save_city_score assets wards "default" today w2 cstore)

/-! ### C6 — rollup additivity -/

/-- C6: rollup is exactly additive (in the exact-arithmetic model there is no
rounding anywhere in the debt sums): the city total debt is the sum of the
ward total debts over all wards, each known ward's total debt is the sum of
the asset-level debts over its active assets, and each asset's debt is the
sum of its unresolved issues' debts. -/
theorem rollup_additive :
    (∀ (assets : List Asset) (wards : List ℕ) (wstore : WardStore) (cstore : CityStore)
        (city_code : String) (d : ℤ),
      (calculate_city_score assets wards wstore cstore city_code d).total_debt =
        ((wards.filterMap (fun w => calculate_ward_score assets wards wstore w d)).map
          (fun s => s.total_debt)).sum) ∧
    (∀ (assets : List Asset) (wards : List ℕ) (wstore : WardStore) (w : ℕ) (d : ℤ),
      w ∈ wards →
      (calculate_ward_score assets wards wstore w d).map (fun r => r.total_debt) =
        some (((wardActiveAssets assets w).map
          (fun a => (calculate_asset_debt a d).2.1)).sum)) ∧
    (∀ (a : Asset) (d : ℤ),
      (calculate_asset_debt a d).2.1 =
        ((openIssues a).map (fun i => (calculate_issue_debt a i d).maintenance_debt)).sum) := by
  refine ⟨fun assets wards wstore cstore city_code d => ?_, fun assets wards wstore w d hw => ?_,
    fun a d => ?_⟩
  · simp only [calculate_city_score]
  · simp only [calculate_ward_score, if_pos hw]
    by_cases hempty : (wardActiveAssets assets w).isEmpty
    · rw [if_pos hempty]
      have : wardActiveAssets assets w = [] := List.isEmpty_iff.mp hempty
      simp [this]
    · rw [if_neg hempty]
      simp only [Option.map_some, List.map_map]
      rfl
  · simp only [calculate_asset_debt, List.map_map]
    rfl

/-- Witness for C6: the ward-level additivity applied at a one-ward database. -/
theorem rollup_additive_witness :
    ((1 : ℕ) ∈ [1]) ∧
    (calculate_ward_score [] [1] [] 1 0).map (fun r => r.total_debt) =
      some (((wardActiveAssets [] 1).map (fun a => (calculate_asset_debt a 0).2.1)).sum) := by
  have h : (1 : ℕ) ∈ [1] := by simp
  exact ⟨h, rollup_additive.2.1 [] [1] [] 1 0 h⟩

/-! ### C4 — trend derivation against lagged snapshots -/

/-- A concrete asset with no issues, used to probe the no-history trend
output. -/
def trendProbeAsset : Asset :=
  { id := 1
    ward_id := 1
    asset_type := "road"
    status := "active"
    base_repair_cost := 100
    issues := [] }

/-- C4 counterexample: with an empty snapshot store (so no snapshot exists 7
or 30 days back), the asset score response leaves the score-change fields
absent but sets `score_trend` to `"stable"` — the trend field is not left
absent as the claim states. -/
theorem trend_label_present_without_history :
    (get_asset_mdi_score [trendProbeAsset] [] 1 100).map (fun r => r.score_change_7d) =
      some none ∧
    (get_asset_mdi_score [trendProbeAsset] [] 1 100).map (fun r => r.score_trend) =
      some (some "stable") ∧
    (get_asset_mdi_score [trendProbeAsset] [] 1 100).map (fun r => r.score_trend) ≠
      some none := by
  have hfind : ([trendProbeAsset].find? (fun a => a.id == (1 : ℕ))) = some trendProbeAsset := by
    simp [trendProbeAsset]
  have h7 : (get_asset_mdi_score [trendProbeAsset] [] 1 100).map (fun r => r.score_change_7d) =
      some none := by
    simp [get_asset_mdi_score, hfind, findRow]
  have ht : (get_asset_mdi_score [trendProbeAsset] [] 1 100).map (fun r => r.score_trend) =
      some (some "stable") := by
    simp [get_asset_mdi_score, hfind, findRow, trendLabel]
  refine ⟨h7, ht, ?_⟩
  rw [ht]
  simp

/-- C4 (amended): the score-change fields are derived from the snapshot
exactly 7 (or 30) days before and are absent when no such snapshot exists;
the trend string, however, is not left absent: it is `"stable"` whenever
there is no 7-day change (including the no-history case) and otherwise
classifies the 7-day change with the strict ±5 dead band (a change of
exactly +5 or −5 is stable). The only absent trend output is the empty-ward
early return, whose trend fields are the schema defaults. This holds at all
three entity levels. -/
theorem trend_fields_behaviour :
    (trendLabel none = "stable") ∧
    (∀ c : ℝ, (c > 5 → trendLabel (some c) = "improving") ∧
      (c < -5 → trendLabel (some c) = "declining") ∧
      (-5 ≤ c → c ≤ 5 → trendLabel (some c) = "stable")) ∧
    (∀ (assets : List Asset) (snaps : SnapStore) (asset_id : ℕ) (today : ℤ),
      (get_asset_mdi_score assets snaps asset_id today).map (fun r => r.score_change_7d) =
        (get_asset_mdi_score assets snaps asset_id today).map (fun r =>
          (findRow snaps (asset_id, today - 7)).map (fun p => r.mdi_score - p.2.mdi_score)) ∧
      (get_asset_mdi_score assets snaps asset_id today).map (fun r => r.score_change_30d) =
        (get_asset_mdi_score assets snaps asset_id today).map (fun r =>
          (findRow snaps (asset_id, today - 30)).map (fun p => r.mdi_score - p.2.mdi_score)) ∧
      (get_asset_mdi_score assets snaps asset_id today).map (fun r => r.score_trend) =
        (get_asset_mdi_score assets snaps asset_id today).map (fun r =>
          some (trendLabel r.score_change_7d))) ∧
    (∀ (assets : List Asset) (wards : List ℕ) (wstore : WardStore) (w : ℕ) (d : ℤ),
      (calculate_ward_score assets wards wstore w d).map (fun r => r.score_change_7d) =
        (calculate_ward_score assets wards wstore w d).map (fun r =>
          if (wardActiveAssets assets w).isEmpty then none
          else (findRow wstore (w, d - 7)).map (fun p => r.mdi_score - p.2.mdi_score)) ∧
      (calculate_ward_score assets wards wstore w d).map (fun r => r.score_trend) =
        (calculate_ward_score assets wards wstore w d).map (fun r =>
          if (wardActiveAssets assets w).isEmpty then none
          else some (trendLabel r.score_change_7d))) ∧
    (∀ (assets : List Asset) (wards : List ℕ) (wstore : WardStore) (cstore : CityStore)
        (city_code : String) (d : ℤ),
      (calculate_city_score assets wards wstore cstore city_code d).score_change_7d =
        (findRow cstore (city_code, d - 7)).map
          (fun p => (calculate_city_score assets wards wstore cstore city_code d).mdi_score -
            p.2.mdi_score) ∧
      (calculate_city_score assets wards wstore cstore city_code d).score_change_30d =
        (findRow cstore (city_code, d - 30)).map
          (fun p => (calculate_city_score assets wards wstore cstore city_code d).mdi_score -
            p.2.mdi_score) ∧
      (calculate_city_score assets wards wstore cstore city_code d).score_trend =
        some (trendLabel
          ((calculate_city_score assets wards wstore cstore city_code d).score_change_7d))) := by
  refine ⟨rfl, fun c => ⟨fun h => ?_, fun h => ?_, fun h1 h2 => ?_⟩,
    fun assets snaps asset_id today => ?_, fun assets wards wstore w d => ?_,
    fun assets wards wstore cstore city_code d => ?_⟩
  · simp [trendLabel, h]
  · have h5 : ¬ (c > 5) := by linarith
    simp [trendLabel, h5, h]
  · have h5 : ¬ (c > 5) := by linarith
    have h5' : ¬ (c < -5) := by linarith
    simp [trendLabel, h5, h5']
  · cases hfind : assets.find? (fun a => a.id == asset_id) with
    | none => simp [get_asset_mdi_score, hfind]
    | some asset => exact ⟨by simp [get_asset_mdi_score, hfind],
        by simp [get_asset_mdi_score, hfind], by simp [get_asset_mdi_score, hfind]⟩
  · by_cases hw : w ∈ wards
    · by_cases hempty : (wardActiveAssets assets w).isEmpty
      · constructor <;>
          simp [calculate_ward_score, if_pos hw, if_pos hempty]
      · constructor <;>
          simp [calculate_ward_score, if_pos hw, if_neg hempty, hempty]
    · constructor <;> simp [calculate_ward_score, if_neg hw]
  · exact ⟨by simp [calculate_city_score], by simp [calculate_city_score],
      by simp [calculate_city_score]⟩

/-- Witness for C4 (amended): the dead-band classification at changes
+6 (improving), −6 (declining) and exactly +5 (stable). -/
theorem trend_fields_behaviour_witness :
    ((6 : ℝ) > 5 ∧ trendLabel (some 6) = "improving") ∧
    ((-6 : ℝ) < -5 ∧ trendLabel (some (-6)) = "declining") ∧
    ((-5 : ℝ) ≤ 5 ∧ (5 : ℝ) ≤ 5 ∧ trendLabel (some 5) = "stable") := by
  have h1 : (6 : ℝ) > 5 := by norm_num
  have h2 : (-6 : ℝ) < -5 := by norm_num
  have h3 : (-5 : ℝ) ≤ 5 := by norm_num
  have h4 : (5 : ℝ) ≤ 5 := le_refl 5
  exact ⟨⟨h1, (trend_fields_behaviour.2.1 6).1 h1⟩,
    ⟨h2, (trend_fields_behaviour.2.1 (-6)).2.1 h2⟩,
    ⟨h3, h4, (trend_fields_behaviour.2.1 5).2.2 h3 h4⟩⟩

/-! ### C7 — upsert semantics of the snapshot writers -/

theorem upsert_no_change {K V : Type} [DecidableEq K] (store : List (K × V)) (k : K) (v : V)
    (h : findRow store k = some (k, v)) : upsert store k v = store := by
  have hsome : (findRow store k).isSome := by rw [h]; rfl
  conv_lhs => rw [upsert]
  rw [if_pos hsome]
  exact updateFirst_no_change k v store h

theorem pair_ne_snd {α β : Type} (a : α) {x y : β} (h : x ≠ y) :
    (a, x) ≠ (a, y) := fun he => h (congrArg Prod.snd he)

theorem findRow_create_snapshot_other (assets : List Asset) (aid : ℕ) (d : ℤ)
    (store : SnapStore) (k' : ℕ × ℤ) (hk : k' ≠ (aid, d)) :
    findRow (create_debt_snapshot assets aid d store) k' = findRow store k' := by
  cases h : assets.find? (fun a => a.id == aid) with
  | none => simp only [create_debt_snapshot, h]
  | some asset =>
    simp only [create_debt_snapshot, h]
    exact findRow_upsert_other store (aid, d) k' _ hk

theorem create_snapshot_idem (assets : List Asset) (aid : ℕ) (d : ℤ) (store : SnapStore) :
    create_debt_snapshot assets aid d (create_debt_snapshot assets aid d store) =
      create_debt_snapshot assets aid d store := by
  cases h : assets.find? (fun a => a.id == aid) with
  | none => simp only [create_debt_snapshot, h]
  | some asset =>
    simp only [create_debt_snapshot, h]
    exact upsert_idem store (aid, d) _

theorem calculate_ward_congr (assets : List Asset) (wards : List ℕ) (w : ℕ) (d : ℤ)
    (st st' : WardStore) (h : findRow st (w, d - 7) = findRow st' (w, d - 7)) :
    calculate_ward_score assets wards st w d = calculate_ward_score assets wards st' w d := by
  simp only [calculate_ward_score, h]

theorem findRow_save_ward_other (assets : List Asset) (wards : List ℕ) (w : ℕ) (d : ℤ)
    (st : WardStore) (k' : ℕ × ℤ) (hk : k' ≠ (w, d)) :
    findRow (save_ward_score assets wards w d st) k' = findRow st k' := by
  cases h : calculate_ward_score assets wards st w d with
  | none => simp only [save_ward_score, h]
  | some r =>
    simp only [save_ward_score, h]
    exact findRow_upsert_other st (w, d) k' _ hk

theorem save_ward_idem (assets : List Asset) (wards : List ℕ) (w : ℕ) (d : ℤ)
    (st : WardStore) :
    save_ward_score assets wards w d (save_ward_score assets wards w d st) =
      save_ward_score assets wards w d st := by
  cases h : calculate_ward_score assets wards st w d with
  | none =>
    have h1 : save_ward_score assets wards w d st = st := by simp only [save_ward_score, h]
    rw [h1]
    exact h1
  | some r =>
    have hk : ((w, d - 7) : ℕ × ℤ) ≠ (w, d) := pair_ne_snd w (by omega)
    have h1 : save_ward_score assets wards w d st = upsert st (w, d) (wardRowOf r) := by
      simp only [save_ward_score, h]
    have h2 : findRow (upsert st (w, d) (wardRowOf r)) (w, d - 7) = findRow st (w, d - 7) :=
      findRow_upsert_other st (w, d) (w, d - 7) _ hk
    have h3 : calculate_ward_score assets wards (upsert st (w, d) (wardRowOf r)) w d = some r := by
      rw [calculate_ward_congr assets wards w d _ st h2, h]
    rw [h1]
    simp only [save_ward_score, h3]
    exact upsert_idem st (w, d) (wardRowOf r)

theorem calculate_city_congr (assets : List Asset) (wards : List ℕ) (wstore : WardStore)
    (city_code : String) (d : ℤ) (c c' : CityStore)
    (h7 : findRow c (city_code, d - 7) = findRow c' (city_code, d - 7))
    (h30 : findRow c (city_code, d - 30) = findRow c' (city_code, d - 30)) :
    calculate_city_score assets wards wstore c city_code d =
      calculate_city_score assets wards wstore c' city_code d := by
  simp only [calculate_city_score, h7, h30]

theorem save_city_idem (assets : List Asset) (wards : List ℕ) (city_code : String) (d : ℤ)
    (wstore : WardStore) (c : CityStore) :
    save_city_score assets wards city_code d wstore
        (save_city_score assets wards city_code d wstore c) =
      save_city_score assets wards city_code d wstore c := by
  have hk7 : ((city_code, d - 7) : String × ℤ) ≠ (city_code, d) := pair_ne_snd city_code (by omega)
  have hk30 : ((city_code, d - 30) : String × ℤ) ≠ (city_code, d) :=
    pair_ne_snd city_code (by omega)
  have hcong : calculate_city_score assets wards wstore
      (save_city_score assets wards city_code d wstore c) city_code d =
      calculate_city_score assets wards wstore c city_code d := by
    apply calculate_city_congr
    · exact findRow_upsert_other c (city_code, d) (city_code, d - 7) _ hk7
    · exact findRow_upsert_other c (city_code, d) (city_code, d - 30) _ hk30
  show upsert (save_city_score assets wards city_code d wstore c) (city_code, d)
      (cityRowOf (calculate_city_score assets wards wstore
        (save_city_score assets wards city_code d wstore c) city_code d)) =
    save_city_score assets wards city_code d wstore c
  rw [hcong]
  exact upsert_idem c (city_code, d) _

/-- The ward-saving loop of `calculate_all_scores`, over an explicit worklist. -/
noncomputable def ward_fold (assets : List Asset) (wards : List ℕ) (today : ℤ)
    (ws : List ℕ) (st : WardStore) : WardStore :=
  ws.foldl (fun st w => save_ward_score assets wards w today st) st

/-- The asset-snapshot loop of `calculate_all_asset_debts`, over an explicit
worklist. -/
noncomputable def snap_fold (assets : List Asset) (today : ℤ)
    (l : List Asset) (st : SnapStore) : SnapStore :=
  l.foldl (fun st a => create_debt_snapshot assets a.id today st) st

theorem findRow_ward_fold (assets : List Asset) (wards : List ℕ) (today : ℤ)
    (ws : List ℕ) : ∀ (st : WardStore) (k' : ℕ × ℤ), k'.2 ≠ today →
    findRow (ward_fold assets wards today ws st) k' = findRow st k' := by
  induction ws with
  | nil => intro st k' _; rfl
  | cons w rest ih =>
    intro st k' h
    have hk : k' ≠ (w, today) := fun he => h (by rw [he])
    unfold ward_fold at ih ⊢
    rw [List.foldl_cons, ih _ k' h, findRow_save_ward_other assets wards w today st k' hk]

theorem ward_fold_persist (assets : List Asset) (wards : List ℕ) (today : ℤ)
    (st0 : WardStore) (ws : List ℕ) :
    ∀ (st : WardStore), (∀ k' : ℕ × ℤ, k'.2 ≠ today → findRow st k' = findRow st0 k') →
    ∀ (w : ℕ) (r : WardScoreResponse),
      calculate_ward_score assets wards st0 w today = some r →
      findRow st (w, today) = some ((w, today), wardRowOf r) →
      findRow (ward_fold assets wards today ws st) (w, today) = some ((w, today), wardRowOf r) := by
  induction ws with
  | nil => intro st _ w r _ hstored; exact hstored
  | cons b rest ih =>
    intro st hagree w r hcalc hstored
    have hagree2 : ∀ k' : ℕ × ℤ, k'.2 ≠ today →
        findRow (save_ward_score assets wards b today st) k' = findRow st0 k' := by
      intro k' h
      rw [findRow_save_ward_other assets wards b today st k' (fun he => h (by rw [he])),
        hagree k' h]
    have hstored2 : findRow (save_ward_score assets wards b today st) (w, today) =
        some ((w, today), wardRowOf r) := by
      by_cases hb : b = w
      · subst hb
        have hc : calculate_ward_score assets wards st b today = some r := by
          rw [calculate_ward_congr assets wards b today st st0
            (hagree (b, today - 7) (show today - 7 ≠ today by omega))]
          exact hcalc
        simp only [save_ward_score, hc]
        exact findRow_upsert_self st (b, today) (wardRowOf r)
      · have hne : ((w, today) : ℕ × ℤ) ≠ (b, today) :=
          fun he => hb (congrArg Prod.fst he).symm
        rw [findRow_save_ward_other assets wards b today st (w, today) hne]
        exact hstored
    unfold ward_fold at ih ⊢
    rw [List.foldl_cons]
    exact ih _ hagree2 w r hcalc hstored2

theorem ward_fold_stored (assets : List Asset) (wards : List ℕ) (today : ℤ)
    (st0 : WardStore) (ws : List ℕ) :
    ∀ (st : WardStore), (∀ k' : ℕ × ℤ, k'.2 ≠ today → findRow st k' = findRow st0 k') →
    ∀ (w : ℕ) (r : WardScoreResponse), w ∈ ws →
      calculate_ward_score assets wards st0 w today = some r →
      findRow (ward_fold assets wards today ws st) (w, today) = some ((w, today), wardRowOf r) := by
  induction ws with
  | nil => intro st _ w r hw; exact absurd hw (List.not_mem_nil w)
  | cons b rest ih =>
    intro st hagree w r hw hcalc
    have hagree2 : ∀ k' : ℕ × ℤ, k'.2 ≠ today →
        findRow (save_ward_score assets wards b today st) k' = findRow st0 k' := by
      intro k' h
      rw [findRow_save_ward_other assets wards b today st k' (fun he => h (by rw [he])),
        hagree k' h]
    unfold ward_fold at ih ⊢
    rw [List.foldl_cons]
    rcases List.mem_cons.mp hw with he | hrest
    · subst he
      have hc : calculate_ward_score assets wards st w today = some r := by
        rw [calculate_ward_congr assets wards w today st st0
          (hagree (w, today - 7) (show today - 7 ≠ today by omega))]
        exact hcalc
      have hsaved : findRow (save_ward_score assets wards w today st) (w, today) =
          some ((w, today), wardRowOf r) := by
        simp only [save_ward_score, hc]
        exact findRow_upsert_self st (w, today) (wardRowOf r)
      exact ward_fold_persist assets wards today st0 rest _ hagree2 w r hcalc hsaved
    · exact ih _ hagree2 w r hrest hcalc

theorem ward_fold_no_op (assets : List Asset) (wards : List ℕ) (today : ℤ)
    (ws : List ℕ) : ∀ (st : WardStore),
    (∀ w ∈ ws, save_ward_score assets wards w today st = st) →
    ward_fold assets wards today ws st = st := by
  induction ws with
  | nil => intro st _; rfl
  | cons b rest ih =>
    intro st h
    unfold ward_fold at ih ⊢
    rw [List.foldl_cons, h b (List.mem_cons_self b rest)]
    exact ih st (fun w hw => h w (List.mem_cons_of_mem b hw))

theorem ward_fold_idem (assets : List Asset) (wards : List ℕ) (today : ℤ) (st0 : WardStore) :
    ward_fold assets wards today wards (ward_fold assets wards today wards st0) =
      ward_fold assets wards today wards st0 := by
  apply ward_fold_no_op
  intro w hw
  have hagree1 : ∀ k' : ℕ × ℤ, k'.2 ≠ today →
      findRow (ward_fold assets wards today wards st0) k' = findRow st0 k' :=
    fun k' h => findRow_ward_fold assets wards today wards st0 k' h
  cases hcalc : calculate_ward_score assets wards st0 w today with
  | none =>
    have hc : calculate_ward_score assets wards (ward_fold assets wards today wards st0)
        w today = none := by
      rw [calculate_ward_congr assets wards w today _ st0
        (hagree1 (w, today - 7) (show today - 7 ≠ today by omega))]
      exact hcalc
    simp only [save_ward_score, hc]
  | some r =>
    have hc : calculate_ward_score assets wards (ward_fold assets wards today wards st0)
        w today = some r := by
      rw [calculate_ward_congr assets wards w today _ st0
        (hagree1 (w, today - 7) (show today - 7 ≠ today by omega))]
      exact hcalc
    have hstored : findRow (ward_fold assets wards today wards st0) (w, today) =
        some ((w, today), wardRowOf r) :=
      ward_fold_stored assets wards today st0 wards st0 (fun _ _ => rfl) w r hw hcalc
    simp only [save_ward_score, hc]
    exact upsert_no_change _ (w, today) (wardRowOf r) hstored

theorem snap_fold_persist (assets : List Asset) (today : ℤ) (l : List Asset) :
    ∀ (st : SnapStore) (aid : ℕ) (asset : Asset),
      assets.find? (fun x => x.id == aid) = some asset →
      findRow st (aid, today) = some ((aid, today), debtSnapshotRow asset today) →
      findRow (snap_fold assets today l st) (aid, today) =
        some ((aid, today), debtSnapshotRow asset today) := by
  induction l with
  | nil => intro st aid asset _ hstored; exact hstored
  | cons b rest ih =>
    intro st aid asset hfound hstored
    have hstored2 : findRow (create_debt_snapshot assets b.id today st) (aid, today) =
        some ((aid, today), debtSnapshotRow asset today) := by
      by_cases hb : b.id = aid
      · rw [hb]
        simp only [create_debt_snapshot, hfound]
        exact findRow_upsert_self st (aid, today) (debtSnapshotRow asset today)
      · have hne : ((aid, today) : ℕ × ℤ) ≠ (b.id, today) :=
          fun he => hb (congrArg Prod.fst he).symm
        rw [findRow_create_snapshot_other assets b.id today st _ hne]
        exact hstored
    unfold snap_fold at ih ⊢
    rw [List.foldl_cons]
    exact ih _ aid asset hfound hstored2

theorem snap_fold_stored (assets : List Asset) (today : ℤ) (l : List Asset) :
    ∀ (st : SnapStore) (a : Asset), a ∈ l →
    ∀ asset : Asset, assets.find? (fun x => x.id == a.id) = some asset →
      findRow (snap_fold assets today l st) (a.id, today) =
        some ((a.id, today), debtSnapshotRow asset today) := by
  induction l with
  | nil => intro st a ha; exact absurd ha (List.not_mem_nil a)
  | cons b rest ih =>
    intro st a ha asset hfound
    unfold snap_fold at ih ⊢
    rw [List.foldl_cons]
    rcases List.mem_cons.mp ha with he | hrest
    · subst he
      have hsaved : findRow (create_debt_snapshot assets a.id today st) (a.id, today) =
          some ((a.id, today), debtSnapshotRow asset today) := by
        simp only [create_debt_snapshot, hfound]
        exact findRow_upsert_self st (a.id, today) (debtSnapshotRow asset today)
      exact snap_fold_persist assets today rest _ a.id asset hfound hsaved
    · exact ih _ a hrest asset hfound

theorem snap_fold_no_op (assets : List Asset) (today : ℤ) (l : List Asset) :
    ∀ st : SnapStore, (∀ a ∈ l, create_debt_snapshot assets a.id today st = st) →
    snap_fold assets today l st = st := by
  induction l with
  | nil => intro st _; rfl
  | cons b rest ih =>
    intro st h
    unfold snap_fold at ih ⊢
    rw [List.foldl_cons, h b (List.mem_cons_self b rest)]
    exact ih st (fun a ha => h a (List.mem_cons_of_mem b ha))

theorem snap_fold_idem (assets : List Asset) (today : ℤ) (l : List Asset) (st : SnapStore) :
    snap_fold assets today l (snap_fold assets today l st) = snap_fold assets today l st := by
  apply snap_fold_no_op
  intro a ha
  cases hf : assets.find? (fun x => x.id == a.id) with
  | none => simp only [create_debt_snapshot, hf]
  | some asset =>
    have hstored := snap_fold_stored assets today l st a ha asset hf
    simp only [create_debt_snapshot, hf]
    exact upsert_no_change _ (a.id, today) (debtSnapshotRow asset today) hstored

theorem create_snapshot_keysNodup (assets : List Asset) (aid : ℕ) (d : ℤ) (store : SnapStore)
    (h : keysNodup store) : keysNodup (create_debt_snapshot assets aid d store) := by
  cases hf : assets.find? (fun a => a.id == aid) with
  | none => simpa only [create_debt_snapshot, hf] using h
  | some asset =>
    simp only [create_debt_snapshot, hf]
    exact upsert_keysNodup store (aid, d) _ h

theorem save_ward_keysNodup (assets : List Asset) (wards : List ℕ) (w : ℕ) (d : ℤ)
    (wstore : WardStore) (h : keysNodup wstore) :
    keysNodup (save_ward_score assets wards w d wstore) := by
  cases hc : calculate_ward_score assets wards wstore w d with
  | none => simpa only [save_ward_score, hc] using h
  | some r =>
    simp only [save_ward_score, hc]
    exact upsert_keysNodup wstore (w, d) _ h

theorem save_city_keysNodup (assets : List Asset) (wards : List ℕ) (city_code : String)
    (d : ℤ) (wstore : WardStore) (cstore : CityStore) (h : keysNodup cstore) :
    keysNodup (save_city_score assets wards city_code d wstore cstore) :=
  upsert_keysNodup cstore (city_code, d) _ h

/-- C7: every snapshot writer upserts: it preserves the at-most-one-row-per-
`(entity, date)` invariant and never appends a duplicate; rerunning any
writer — and the whole daily batch (`calculate_all_asset_debts`,
`calculate_all_scores`) — for the same date with unchanged underlying data
leaves every snapshot row identical. -/
theorem snapshot_upsert_idempotent :
    (∀ (assets : List Asset) (aid : ℕ) (d : ℤ) (store : SnapStore),
      keysNodup store → keysNodup (create_debt_snapshot assets aid d store)) ∧
    (∀ (assets : List Asset) (wards : List ℕ) (w : ℕ) (d : ℤ) (wstore : WardStore),
      keysNodup wstore → keysNodup (save_ward_score assets wards w d wstore)) ∧
    (∀ (assets : List Asset) (wards : List ℕ) (city_code : String) (d : ℤ)
      (wstore : WardStore) (cstore : CityStore),
      keysNodup cstore → keysNodup (save_city_score assets wards city_code d wstore cstore)) ∧
    (∀ (assets : List Asset) (aid : ℕ) (d : ℤ) (store : SnapStore),
      create_debt_snapshot assets aid d (create_debt_snapshot assets aid d store) =
        create_debt_snapshot assets aid d store) ∧
    (∀ (assets : List Asset) (wards : List ℕ) (w : ℕ) (d : ℤ) (wstore : WardStore),
      save_ward_score assets wards w d (save_ward_score assets wards w d wstore) =
        save_ward_score assets wards w d wstore) ∧
    (∀ (assets : List Asset) (wards : List ℕ) (city_code : String) (d : ℤ)
      (wstore : WardStore) (cstore : CityStore),
      save_city_score assets wards city_code d wstore
          (save_city_score assets wards city_code d wstore cstore) =
        save_city_score assets wards city_code d wstore cstore) ∧
    (∀ (assets : List Asset) (d : ℤ) (store : SnapStore),
      calculate_all_asset_debts assets d (calculate_all_asset_debts assets d store) =
        calculate_all_asset_debts assets d store) ∧
    (∀ (assets : List Asset) (wards : List ℕ) (d : ℤ) (wstore : WardStore)
      (cstore : CityStore),
      calculate_all_scores assets wards d
          (calculate_all_scores assets wards d wstore cstore).1
          (calculate_all_scores assets wards d wstore cstore).2 =
        calculate_all_scores assets wards d wstore cstore) := by
  refine ⟨create_snapshot_keysNodup, save_ward_keysNodup, save_city_keysNodup,
    create_snapshot_idem, save_ward_idem, save_city_idem, fun assets d store => ?_,
    fun assets wards d wstore cstore => ?_⟩
  · exact snap_fold_idem assets d (assets.filter (fun a => a.status == "active")) store
  · have hw : ward_fold assets wards d wards (ward_fold assets wards d wards wstore) =
        ward_fold assets wards d wards wstore := ward_fold_idem assets wards d wstore
    show (ward_fold assets wards d wards (ward_fold assets wards d wards wstore),
        save_city_score assets wards "default" d
          (ward_fold assets wards d wards (ward_fold assets wards d wards wstore))
          (save_city_score assets wards "default" d (ward_fold assets wards d wards wstore)
            cstore)) =
      (ward_fold assets wards d wards wstore,
        save_city_score assets wards "default" d (ward_fold assets wards d wards wstore) cstore)
    rw [hw]
    exact congrArg _ (save_city_idem assets wards "default" d
      (ward_fold assets wards d wards wstore) cstore)

/-- Witness for C7: the key-uniqueness preservation applied to empty stores
(which trivially satisfy the invariant). -/
theorem snapshot_upsert_idempotent_witness :
    keysNodup ([] : SnapStore) ∧ keysNodup (create_debt_snapshot [] 1 0 []) ∧
    keysNodup ([] : WardStore) ∧ keysNodup (save_ward_score [] [] 1 0 []) ∧
    keysNodup ([] : CityStore) ∧ keysNodup (save_city_score [] [] "default" 0 [] []) := by
  have h1 : keysNodup ([] : SnapStore) := by simp [keysNodup]
  have h2 : keysNodup ([] : WardStore) := by simp [keysNodup]
  have h3 : keysNodup ([] : CityStore) := by simp [keysNodup]
  exact ⟨h1, snapshot_upsert_idempotent.1 [] 1 0 [] h1, h2,
    snapshot_upsert_idempotent.2.1 [] [] 1 0 [] h2, h3,
    snapshot_upsert_idempotent.2.2.1 [] [] "default" 0 [] [] h3⟩

end MDI
